import Mathlib

/-!
Shallow embedding of the FinanceBot / NPCI Grievance Bot repository
(`config/actions.py` and `finance_bot.py`) for checking its specification.

Conventions of the embedding:
* The process-wide mutable list `grievances_db` is passed explicitly as a
  `List Grievance` argument and returned where the Python code mutates it.
* Python dicts returned by the actions become Lean structures; keys that the
  Python code only adds on some paths (`escalation_reason`, `escalated_at`,
  `full_response`, ...) become `Option` fields that are `none` where Python
  would leave the key absent.
* Wall-clock timestamps (`datetime.now().isoformat()`) are passed in as
  explicit `String` arguments; the elapsed-hours computation done with the
  external `datetime` library is passed in as an oracle `String → ℚ`.
* Python `str.lower()` is modelled by mapping `Char.toLower` (identical on
  the ASCII inputs involved), the substring test `a in b` by `listContains`,
  and `re.search` of a `\b…\b`-delimited literal by `wordSearch` below.
-/

namespace FinBot

/-- Python substring test `sub in big`, on exploded strings. -/
def listContains (sub big : List Char) : Bool :=
  (List.range (big.length + 1)).any fun i =>
    decide ((big.drop i).take sub.length = sub)

/-- Substring test on strings (`sub in big` in Python). -/
def strContains (sub big : String) : Bool :=
  listContains sub.toList big.toList

/-- Lower-cased character list of a string (Python `s.lower()`). -/
def lowerList (s : String) : List Char :=
  s.toList.map Char.toLower

/-- Python regex word character class `\w` (ASCII fragment). -/
def isWordChar (c : Char) : Bool :=
  c.isAlphanum || c == '_'

/-- Word-ness of an optional character; out-of-string counts as non-word. -/
def wordAt (c : Option Char) : Bool :=
  match c with
  | none => false
  | some c => isWordChar c

/-- `re.search(r'\b<pat>\b', s)` for a literal pattern `pat`: the pattern
occurs at some position with a word boundary (word-ness change) on each
side. -/
def wordSearch (pat s : List Char) : Bool :=
  (List.range (s.length + 1)).any fun i =>
    decide ((s.drop i).take pat.length = pat) &&
    (wordAt (if i = 0 then none else s[i-1]?) != wordAt s[i]?) &&
    (wordAt s[i + pat.length - 1]? != wordAt s[i + pat.length]?)

/-! ### Sequential grievance identifiers

`create_grievance` builds the id `f"NPCI{len(grievances_db) + 1:06d}"`:
the literal `NPCI` followed by the decimal numeral zero-padded to at
least six characters.  `digitsAux` computes the little-endian decimal
digits (with explicit fuel so it is structurally recursive). -/

/-- Little-endian base-10 digits of `n`, with fuel (`digitsAux fuel n`
is correct whenever `n ≤ fuel`). -/
def digitsAux : Nat → Nat → List Nat
  | _, 0 => []
  | 0, _ + 1 => []
  | fuel + 1, n + 1 => ((n + 1) % 10) :: digitsAux fuel ((n + 1) / 10)

/-- Little-endian base-10 digits of `n` (empty for `0`). -/
def digitsOf (n : Nat) : List Nat := digitsAux n n

/-- Value of a little-endian digit list. -/
def valOf : List Nat → Nat
  | [] => 0
  | d :: ds => d + 10 * valOf ds

/-- Decimal numeral of `n` zero-padded on the left to six characters
(Python `f"{n:06d}"`). -/
def padRepr (n : Nat) : List Char :=
  let r := ((digitsOf n).map Nat.digitChar).reverse
  List.replicate (6 - r.length) '0' ++ r

/-- The grievance id string `f"NPCI{n:06d}"`. -/
def formatId (n : Nat) : String :=
  ⟨'N' :: 'P' :: 'C' :: 'I' :: padRepr n⟩

/-! ### The grievance store data model (`config/actions.py`) -/

/-- One record appended to `grievances_db` by `create_grievance`.  The
Python dict keys `escalation_reason` / `escalated_at` only exist after
`escalate_grievance` ran; they are `none` before. -/
structure Grievance where
  id : String
  user_id : String
  category : String
  service_type : String
  description : String
  priority : String
  status : String
  created_at : String
  assigned_to : String
  expected_resolution : String
  escalation_level : Nat
  escalation_reason : Option String
  escalated_at : Option String
deriving DecidableEq, Repr

/-- The process-wide list `grievances_db`. -/
abbrev DB := List Grievance

/-- The allow-list `valid_categories` in `create_grievance`. -/
def valid_categories : List String :=
  ["upi_transaction_failure", "upi_money_debited", "upi_id_issues", "upi_limit_exceeded",
   "rupay_card_not_working", "rupay_transaction_declined", "rupay_reward_issues",
   "nach_mandate_failure", "nach_payment_bounce", "nach_auto_debit_issues",
   "imps_transfer_failed", "imps_beneficiary_issues", "imps_limit_issues",
   "netc_fastag_issues", "netc_double_deduction", "netc_balance_issues",
   "bbps_payment_failed", "bbps_duplicate_payment", "bbps_receipt_issues",
   "general_npci_query", "technical_issues", "other"]

/-- Return envelope of `create_grievance`. -/
structure CreateResult where
  success : Bool
  grievance_id : String
  service_type : String
  expected_resolution : String
  message : String
  next_steps : String
deriving DecidableEq, Repr

/-- `create_grievance(user_id, category, description, priority, service_type)`:
validates the category against the allow-list (substituting
`"general_npci_query"` on mismatch), assigns id `NPCI{len(db)+1:06d}`,
appends the record, and returns the success envelope.  `now` stands for
`datetime.now().isoformat()`. -/
def create_grievance (user_id category description priority service_type now : String)
    (db : DB) : CreateResult × DB :=
  let grievance_id := formatId (db.length + 1)
  let category := if category ∈ valid_categories then category else "general_npci_query"
  let g : Grievance :=
    { id := grievance_id
      user_id := user_id
      category := category
      service_type := service_type
      description := description
      priority := priority
      status := "open"
      created_at := now
      assigned_to := "NPCI_Support_Team"
      expected_resolution := "7-10 working days"
      escalation_level := 1
      escalation_reason := none
      escalated_at := none }
  ({ success := true
     grievance_id := grievance_id
     service_type := service_type
     expected_resolution := "7-10 working days"
     message := "NPCI grievance created successfully with ID: " ++ grievance_id ++
       ". Expected resolution: 7-10 working days."
     next_steps := "Please save this grievance ID for future reference. You can also contact your bank with this ID." },
   db ++ [g])

/-- Return envelope of `get_grievance_status`. -/
structure StatusResult where
  success : Bool
  grievance : Option Grievance
  error : Option String
deriving DecidableEq, Repr

/-- `get_grievance_status(grievance_id)`: linear scan of the store,
returning the first record with the given id, else a "not found"
failure envelope. -/
def get_grievance_status (grievance_id : String) (db : DB) : StatusResult :=
  match db with
  | [] => { success := false, grievance := none, error := some "Grievance not found" }
  | g :: rest =>
    if g.id = grievance_id then
      { success := true, grievance := some g, error := none }
    else
      get_grievance_status grievance_id rest

/-- Return envelope of `escalate_grievance`. -/
structure EscalateResult where
  success : Bool
  message : Option String
  error : Option String
deriving DecidableEq, Repr

/-- `escalate_grievance(grievance_id, reason)`: mutates the first record
with the given id to priority `"high"`, stamping the reason and the
escalation time `now`, else returns the "not found" envelope.  The
(possibly updated) store is returned alongside the envelope. -/
def escalate_grievance (grievance_id reason now : String) (db : DB) :
    EscalateResult × DB :=
  match db with
  | [] => ({ success := false, message := none, error := some "Grievance not found" }, [])
  | g :: rest =>
    if g.id = grievance_id then
      ({ success := true
         message := some ("Grievance " ++ grievance_id ++ " escalated successfully")
         error := none },
       { g with priority := "high", escalation_reason := some reason,
                escalated_at := some now } :: rest)
    else
      let r := escalate_grievance grievance_id reason now rest
      (r.1, g :: r.2)

/-- Return envelope of `calculate_response_time`. -/
structure ResponseTimeResult where
  success : Bool
  response_time_hours : Option ℚ
  within_sla : Option Bool
  error : Option String
deriving DecidableEq, Repr

/-- Python `round(x, 2)` on an exact rational (half rounded up; Python's
binary-float half-to-even differs only on exact ties). -/
def round2 (x : ℚ) : ℚ := (⌊x * 100 + 1/2⌋ : ℚ) / 100

/-- `calculate_response_time(grievance_id)`: for a found record, the
elapsed hours between `created_at` and now — computed by the external
`datetime` library, passed in as the oracle `hoursSince` — rounded to
two decimals, with the 24-hour SLA flag; else the "not found"
envelope. -/
def calculate_response_time (grievance_id : String) (hoursSince : String → ℚ)
    (db : DB) : ResponseTimeResult :=
  match db with
  | [] => { success := false, response_time_hours := none, within_sla := none,
            error := some "Grievance not found" }
  | g :: rest =>
    if g.id = grievance_id then
      let response_time := hoursSince g.created_at
      { success := true
        response_time_hours := some (round2 response_time)
        within_sla := some (decide (response_time ≤ 24))
        error := none }
    else
      calculate_response_time grievance_id hoursSince rest

/-! ### Compliance check (`check_compliance`) -/

/-- Return envelope of `check_compliance`. -/
structure ComplianceResult where
  is_compliant : Bool
  compliant : Bool
  issues : List String
  requires_disclaimer : Bool
  disclaimer : String
deriving DecidableEq, Repr

/-- The sensitive vocabulary scanned by `check_compliance`. -/
def sensitive_terms : List String :=
  ["credit card", "ssn", "social security", "password", "pin"]

/-- The investment-advice vocabulary scanned by `check_compliance`. -/
def investment_terms : List String :=
  ["invest", "stock", "bond", "portfolio", "return"]

/-- The fixed disclaimer attached when investment advice is detected. -/
def disclaimer_text : String :=
  "\n\nDisclaimer: This information is for educational purposes only and should not be considered as financial advice. Please consult with a qualified financial advisor before making investment decisions."

/-- Python truthiness of an optional string: `None` and `""` are falsy. -/
def strFalsy : Option String → Bool
  | none => true
  | some s => decide (s = "")

/-- The text selected by line `text_to_check = bot_response or message or ""`
of `check_compliance` (Python `or` returns the first truthy operand). -/
def textToCheck (message bot_response : Option String) : String :=
  match bot_response with
  | some b => if b = "" then (match message with
                              | some m => if m = "" then "" else m
                              | none => "")
              else b
  | none => match message with
            | some m => if m = "" then "" else m
            | none => ""

/-- `check_compliance(message, bot_response)`: scans the selected text for
sensitive terms (producing issue strings) and for investment vocabulary
(producing the disclaimer flag and text). -/
def check_compliance (message bot_response : Option String) : ComplianceResult :=
  let text_to_check := textToCheck message bot_response
  let lc := lowerList text_to_check
  let compliance_issues :=
    (sensitive_terms.filter fun term => listContains (lowerList term) lc).map
      fun term => "Contains sensitive term: " ++ term
  let has_investment_advice := investment_terms.any fun term => listContains term.toList lc
  let disclaimer := if has_investment_advice then disclaimer_text else ""
  { is_compliant := decide (compliance_issues.length = 0)
    compliant := decide (compliance_issues.length = 0)
    issues := compliance_issues
    requires_disclaimer := has_investment_advice
    disclaimer := disclaimer }

/-! ### Intent classification (`classify_user_intent`) -/

/-- Return envelope of `classify_user_intent`; the float confidence is
modelled as an exact rational. -/
structure IntentResult where
  category : String
  confidence : ℚ
  message : String
deriving DecidableEq, Repr

/-- The off-topic regular expressions (each is a `\b…\b`-delimited
literal; the inner literals are listed here). -/
def off_topic_patterns : List String :=
  ["llm", "ai", "artificial intelligence", "machine learning", "chatbot",
   "weather", "sports", "politics", "entertainment", "personal life",
   "philosophy", "religion", "what is like to be", "how does it feel",
   "your experience", "your thoughts", "your opinion", "loan", "credit card bill",
   "investment", "insurance", "mutual fund", "stock", "forex"]

def upi_keywords : List String :=
  ["upi", "unified payment", "payment failed", "money debited", "upi id",
   "upi pin", "phonepe", "gpay", "paytm", "bhim"]

def rupay_keywords : List String :=
  ["rupay", "debit card", "atm card", "card not working", "card declined", "card blocked"]

def mandate_keywords : List String :=
  ["nach", "mandate", "auto debit", "emi", "autopay", "standing instruction",
   "si", "recurring payment"]

def imps_keywords : List String :=
  ["imps", "immediate payment", "instant transfer", "money transfer", "beneficiary"]

def netc_keywords : List String :=
  ["fastag", "netc", "toll", "toll payment", "blacklist", "recharge"]

def bbps_keywords : List String :=
  ["bbps", "bill payment", "utility bill", "electricity bill", "water bill", "gas bill"]

def grievance_keywords : List String :=
  ["complaint", "issue", "problem", "grievance", "dispute", "unhappy",
   "dissatisfied", "error", "failed", "not working"]

def npci_service_keywords : List String :=
  ["npci", "what is npci", "transaction limit", "service hours", "contact",
   "helpline", "support"]

/-- `any(re.search(p, text) for p in pats)` over word-bounded literals. -/
def anyWordPattern (pats : List String) (lc : List Char) : Bool :=
  pats.any fun p => wordSearch p.toList lc

/-- `any(kw in text for kw in kws)`. -/
def anyKeyword (kws : List String) (lc : List Char) : Bool :=
  kws.any fun k => listContains k.toList lc

/-- `classify_user_intent(user_message)`: first-match-wins over the ordered
keyword groups, off-topic first. -/
def classify_user_intent (user_message : String) : IntentResult :=
  let lc := lowerList user_message
  if anyWordPattern off_topic_patterns lc then
    { category := "off_topic", confidence := 0.95, message := user_message }
  else if anyKeyword upi_keywords lc then
    { category := "upi_related", confidence := 0.9, message := user_message }
  else if anyKeyword rupay_keywords lc then
    { category := "rupay_related", confidence := 0.9, message := user_message }
  else if anyKeyword mandate_keywords lc then
    { category := "mandate_related", confidence := 0.9, message := user_message }
  else if anyKeyword imps_keywords lc then
    { category := "imps_related", confidence := 0.9, message := user_message }
  else if anyKeyword netc_keywords lc then
    { category := "netc_related", confidence := 0.9, message := user_message }
  else if anyKeyword bbps_keywords lc then
    { category := "bbps_related", confidence := 0.9, message := user_message }
  else if anyKeyword grievance_keywords lc then
    { category := "general_grievance", confidence := 0.8, message := user_message }
  else if anyKeyword npci_service_keywords lc then
    { category := "npci_inquiry", confidence := 0.8, message := user_message }
  else
    { category := "general_npci_support", confidence := 0.5, message := user_message }

/-! ### Orchestrator message building (`finance_bot.py`)

`process_message`, `stream_message` and `stream_message_with_handler`
all build the message sequence sent to the external guardrails engine
the same way: `history[-K:]` (if a non-empty history was given) followed
by the new `{"role": "user", ...}` message.  `process_message` and
`stream_message_with_handler` use `K = 10`, `stream_message` uses
`K = 8`. -/

/-- A role-tagged chat message. -/
structure ChatMsg where
  role : String
  content : String
deriving DecidableEq, Repr

/-- `history[-k:] if history else []` followed by the new user message
(`if conversation_history:` treats `None` and `[]` alike). -/
def buildMessages (k : Nat) (conversation_history : Option (List ChatMsg))
    (user_message : String) : List ChatMsg :=
  let base := match conversation_history with
    | none => []
    | some h => if h = [] then [] else h.drop (h.length - k)
  base ++ [{ role := "user", content := user_message }]

/-- The message sequence `process_message` forwards to the engine
(last 10 history turns). -/
def processMessages (conversation_history : Option (List ChatMsg))
    (user_message : String) : List ChatMsg :=
  buildMessages 10 conversation_history user_message

/-- The message sequence `stream_message` forwards to the engine
(last 8 history turns). -/
def streamMessages (conversation_history : Option (List ChatMsg))
    (user_message : String) : List ChatMsg :=
  buildMessages 8 conversation_history user_message

/-- The message sequence `stream_message_with_handler` forwards to the
engine (last 10 history turns). -/
def streamHandlerMessages (conversation_history : Option (List ChatMsg))
    (user_message : String) : List ChatMsg :=
  buildMessages 10 conversation_history user_message

/-! ### Streaming adapter (`stream_message`) -/

/-- Behaviour of the external engine's fragment stream on one request:
the chunks it yielded in order, and `some e` if iterating it then raised
the exception rendered as `e` (so `chunks` are the fragments produced
before the failure). -/
structure StreamTrace where
  chunks : List String
  err : Option String
deriving DecidableEq, Repr

/-- The single error fragment `stream_message` yields from its
`except` block. -/
def errorFragment (e : String) : String :=
  "I apologize, but I encountered an error processing your request: " ++ e

/-- Python `s.strip()` on an exploded string: whitespace removed from
both ends. -/
def pyStrip (l : List Char) : List Char :=
  ((l.dropWhile Char.isWhitespace).reverse.dropWhile Char.isWhitespace).reverse

/-- The chunk filter `if chunk and chunk.strip():` of `stream_message`
(`chunk.strip()` is truthy exactly when some character is
non-whitespace). -/
def keepChunk (c : String) : Bool :=
  !(c == "") && !(pyStrip c.toList == [])

/-- `stream_message` as a function of the engine's stream behaviour: each
non-empty, non-whitespace chunk is forwarded; when iteration raises, the
`except` clause yields exactly one error fragment and the generator ends
(the exception itself never reaches the caller — the model is a total
function into fragment lists). -/
def stream_message (tr : StreamTrace) : List String :=
  tr.chunks.filter keepChunk ++
    (match tr.err with
     | some e => [errorFragment e]
     | none => [])

/-! ### Safety-classification API (`llama_guard_api_check`) -/

/-- Return envelope of `llama_guard_api_check` (`full_response` is absent
on the missing-key path). -/
structure GuardResult where
  is_safe : Bool
  assessment : String
  violated_categories : List String
  full_response : Option String
  source : String
deriving DecidableEq, Repr

/-- Outcome of the `requests.post` call to the Hugging Face inference
API: a 200 with the extracted generated text, a 503 (model loading),
another status code with its body, or a raised
`requests.exceptions.RequestException` rendered as a string (covering
timeouts and network failures). -/
inductive ApiOutcome where
  | http200 (generated_text : String)
  | http503
  | httpOther (code : Nat) (body : String)
  | requestException (e : String)
deriving DecidableEq, Repr

/-- Python `s.split(sep)` for a one-character separator, on an exploded
string: splits at every occurrence, keeping empty pieces, and always
returns at least one piece. -/
def splitOnChar (sep : Char) : List Char → List (List Char)
  | [] => [[]]
  | c :: cs =>
    let r := splitOnChar sep cs
    if c == sep then [] :: r else (c :: r.headD []) :: r.tail

/-- Outcomes on which the check falls back (anything but a 200). -/
def apiFailed : ApiOutcome → Bool
  | .http200 _ => false
  | _ => true

/-- `llama_guard_api_check(user_message)`: with a falsy
`HUGGINGFACE_API_KEY` it fails open immediately; otherwise the API
outcome is parsed on 200 and every failure falls back open.  The network
interaction is abstracted as `outcome`. -/
def llama_guard_api_check (hf_token : Option String) (outcome : ApiOutcome) :
    GuardResult :=
  if strFalsy hf_token then
    { is_safe := true, assessment := "no_api_key", violated_categories := [],
      full_response := none, source := "fallback" }
  else
    match outcome with
    | .http200 generated_text =>
      let llama_response := pyStrip generated_text.toList
      let lines := splitOnChar '\n' llama_response
      let safety_assessment := pyStrip ((lines.headD []).map Char.toLower)
      let is_safe := decide (safety_assessment = "safe".toList)
      let violated_categories :=
        if is_safe = false ∧ lines.length > 1 then
          (splitOnChar ',' (lines.getD 1 [])).map fun cat => String.mk (pyStrip cat)
        else []
      { is_safe := is_safe, assessment := String.mk safety_assessment,
        violated_categories := violated_categories,
        full_response := some (String.mk llama_response), source := "huggingface_api" }
    | .http503 =>
      { is_safe := true, assessment := "model_loading", violated_categories := [],
        full_response := some "Model is loading, please try again",
        source := "fallback" }
    | .httpOther code body =>
      { is_safe := true, assessment := "api_error", violated_categories := [],
        full_response := some ("HTTP " ++ toString code ++ ": " ++ body),
        source := "fallback" }
    | .requestException e =>
      { is_safe := true, assessment := "network_error", violated_categories := [],
        full_response := some e, source := "fallback" }

/-! ### Operation sequences over the store -/

/-- One store-mutating action call (the timestamps are the `now` values
of the calls). -/
inductive StoreOp where
  | create (user_id category description priority service_type now : String)
  | escalate (grievance_id reason now : String)
deriving DecidableEq, Repr

/-- Apply one operation to the store. -/
def applyOp (db : DB) : StoreOp → DB
  | .create u c d p s t => (create_grievance u c d p s t db).2
  | .escalate gid r t => (escalate_grievance gid r t db).2

/-- Apply a sequence of operations to the store. -/
def applyOps (db : DB) (ops : List StoreOp) : DB :=
  ops.foldl applyOp db

/-- Does a `create` operation pass a priority inside the documented
`low|medium|high` enum?  (`escalate` carries no priority argument.) -/
def priorityOk : StoreOp → Bool
  | .create _ _ _ p _ _ => decide (p ∈ ["low", "medium", "high"])
  | .escalate _ _ _ => true

/-- Arguments of one `create_grievance` call. -/
structure CreateArgs where
  user_id : String
  category : String
  description : String
  priority : String
  service_type : String
  now : String
deriving DecidableEq, Repr

/-- Run a sequence of `create_grievance` calls, collecting the returned
`grievance_id`s in call order. -/
def runCreates : List CreateArgs → DB → List String × DB
  | [], db => ([], db)
  | c :: cs, db =>
    let r := create_grievance c.user_id c.category c.description c.priority c.service_type c.now db
    let rest := runCreates cs r.2
    (r.1.grievance_id :: rest.1, rest.2)

/-! ## Supporting lemmas -/

lemma listContains_append_left (sub l1 l2 : List Char)
    (h : listContains sub l1 = true) : listContains sub (l1 ++ l2) = true := by
  unfold listContains at h ⊢
  simp only [List.any_eq_true, List.mem_range, decide_eq_true_eq] at h ⊢
  obtain ⟨i, hi, heq⟩ := h
  have hlen : sub.length ≤ (l1.drop i).length := by
    by_contra hlt
    push_neg at hlt
    have hl := congrArg List.length heq
    simp only [List.length_take] at hl
    omega
  refine ⟨i, by simp; omega, ?_⟩
  rw [List.drop_append_of_le_length (by omega),
      List.take_append_of_le_length hlen, heq]

/-! ## C3 -/

/-- C3: `check_compliance` on `"My credit card number is 1234-5678-9012-3456"`
returns an issue mentioning `"credit card"` with `compliant` and
`is_compliant` false; on `"I want to invest in stocks for better returns"` it
returns `requires_disclaimer = true` with a non-empty disclaimer; on
`"I need help with my account balance"` it returns no issues and
`requires_disclaimer = false`. -/
theorem check_compliance_literal_inputs :
    ((check_compliance (some "My credit card number is 1234-5678-9012-3456") none).issues.any
        (fun i => strContains "credit card" i) = true) ∧
    (check_compliance (some "My credit card number is 1234-5678-9012-3456") none).compliant = false ∧
    (check_compliance (some "My credit card number is 1234-5678-9012-3456") none).is_compliant = false ∧
    (check_compliance (some "I want to invest in stocks for better returns") none).requires_disclaimer = true ∧
    (check_compliance (some "I want to invest in stocks for better returns") none).disclaimer ≠ "" ∧
    (check_compliance (some "I need help with my account balance") none).issues = [] ∧
    (check_compliance (some "I need help with my account balance") none).requires_disclaimer = false := by
  decide

/-! ## C10 -/

/-- C10: `check_compliance` examines `bot_response` when it is a non-empty
string, otherwise `message` when non-empty, otherwise the empty string; with
both arguments absent it reports fully compliant with no issues, no
disclaimer requirement and an empty disclaimer. -/
theorem check_compliance_text_selection (message bot_response : Option String) :
    (∀ b, bot_response = some b → b ≠ "" → textToCheck message bot_response = b) ∧
    (strFalsy bot_response = true →
      ∀ m, message = some m → m ≠ "" → textToCheck message bot_response = m) ∧
    (strFalsy bot_response = true → strFalsy message = true →
      textToCheck message bot_response = "") ∧
    check_compliance none none =
      { is_compliant := true, compliant := true, issues := [],
        requires_disclaimer := false, disclaimer := "" } := by
  refine ⟨?_, ?_, ?_, by decide⟩
  · intro b hb hbne
    subst hb
    simp [textToCheck, hbne]
  · intro hf m hm hmne
    subst hm
    cases bot_response with
    | none => simp [textToCheck, hmne]
    | some b =>
      have hb : b = "" := by simpa [strFalsy] using hf
      subst hb
      simp [textToCheck, hmne]
  · intro hf hm
    cases bot_response with
    | none =>
      cases message with
      | none => rfl
      | some m =>
        have : m = "" := by simpa [strFalsy] using hm
        subst this
        rfl
    | some b =>
      have hb : b = "" := by simpa [strFalsy] using hf
      subst hb
      cases message with
      | none => rfl
      | some m =>
        have : m = "" := by simpa [strFalsy] using hm
        subst this
        rfl

/-- Witness for C10 at concrete inputs. -/
theorem check_compliance_text_selection_w :
    textToCheck (some "msg") (some "resp") = "resp" ∧
    textToCheck (some "msg") none = "msg" ∧
    textToCheck none (some "") = "" :=
  ⟨(check_compliance_text_selection (some "msg") (some "resp")).1 "resp" rfl (by decide),
   (check_compliance_text_selection (some "msg") none).2.1 (by decide) "msg" rfl (by decide),
   (check_compliance_text_selection none (some "")).2.2.1 (by decide) (by decide)⟩

/-! ## C9 -/

/-- C9: with a falsy `HUGGINGFACE_API_KEY`, and likewise on any API error,
503 model-loading response, timeout or network failure,
`llama_guard_api_check` fails open: safe, no violated categories, source
`"fallback"` (and, being a total function of the outcome, it raises
nothing). -/
theorem llama_guard_fails_open (hf_token : Option String) (outcome : ApiOutcome)
    (h : strFalsy hf_token = true ∨ apiFailed outcome = true) :
    (llama_guard_api_check hf_token outcome).is_safe = true ∧
    (llama_guard_api_check hf_token outcome).violated_categories = [] ∧
    (llama_guard_api_check hf_token outcome).source = "fallback" := by
  by_cases hk : strFalsy hf_token = true
  · simp [llama_guard_api_check, hk]
  · cases outcome <;> simp_all [llama_guard_api_check, apiFailed]

/-- Witness for C9: no API key present. -/
theorem llama_guard_fails_open_w :
    (llama_guard_api_check none (.http200 "unsafe\nO7")).is_safe = true ∧
    (llama_guard_api_check none (.http200 "unsafe\nO7")).violated_categories = [] ∧
    (llama_guard_api_check none (.http200 "unsafe\nO7")).source = "fallback" :=
  llama_guard_fails_open none (.http200 "unsafe\nO7") (Or.inl (by decide))

/-! ## C4 -/

/-- C4: any message matching an off-topic word pattern is classified
`"off_topic"` (the off-topic group is evaluated first, pre-empting domain
keywords), and the confidence is always in `[0, 1]`. -/
theorem classify_off_topic_first (user_message : String) :
    (anyWordPattern off_topic_patterns (lowerList user_message) = true →
      (classify_user_intent user_message).category = "off_topic") ∧
    0 ≤ (classify_user_intent user_message).confidence ∧
    (classify_user_intent user_message).confidence ≤ 1 := by
  refine ⟨fun h => by simp [classify_user_intent, h], ?_, ?_⟩ <;>
    · simp only [classify_user_intent]
      split_ifs <;> norm_num

/-- Witness for C4: `"weather upi"` matches the off-topic pattern
`\bweather\b` and also contains the domain keyword `"upi"`, yet is
classified `"off_topic"`. -/
theorem classify_off_topic_first_w :
    anyWordPattern off_topic_patterns (lowerList "weather upi") = true ∧
    anyKeyword upi_keywords (lowerList "weather upi") = true ∧
    (classify_user_intent "weather upi").category = "off_topic" :=
  ⟨by decide, by decide, (classify_off_topic_first "weather upi").1 (by decide)⟩

/-! ## C5 -/

/-- C5 counterexample: a request whose stream raises after already yielding
the fragment `"hello"` produces two fragments, not exactly one. -/
theorem stream_message_two_fragments :
    (stream_message ⟨["hello"], some "boom"⟩).length = 2 ∧
    stream_message ⟨["hello"], some "boom"⟩ = ["hello", errorFragment "boom"] := by
  decide

/-- C5 (amended): when the engine's stream raises, `stream_message` appends
exactly one final error fragment containing the indicator `"error"` and
terminates (it is a total function of the trace — the exception never
reaches the caller); when the failure precedes any forwarded chunk, that
error fragment is the only fragment yielded. -/
theorem stream_message_error_fragment (tr : StreamTrace) (e : String)
    (he : tr.err = some e) :
    stream_message tr = tr.chunks.filter keepChunk ++ [errorFragment e] ∧
    (stream_message tr).getLast? = some (errorFragment e) ∧
    strContains "error" (errorFragment e) = true ∧
    (tr.chunks.filter keepChunk = [] → stream_message tr = [errorFragment e]) := by
  have h1 : stream_message tr = tr.chunks.filter keepChunk ++ [errorFragment e] := by
    simp [stream_message, he]
  refine ⟨h1, ?_, ?_, fun hnil => by simp [h1, hnil]⟩
  · rw [h1]
    exact List.getLast?_concat _
  · unfold strContains errorFragment
    have hsplit : ("I apologize, but I encountered an error processing your request: " ++ e).toList
        = "I apologize, but I encountered an error processing your request: ".toList ++ e.toList := by
      simp [String.toList, String.data_append]
    rw [hsplit]
    exact listContains_append_left _ _ _ (by decide)

/-- Witness for C5 (amended): failure before any chunk yields exactly the
one error fragment. -/
theorem stream_message_error_fragment_w :
    stream_message ⟨[], some "boom"⟩ = [errorFragment "boom"] :=
  (stream_message_error_fragment ⟨[], some "boom"⟩ "boom" rfl).2.2.2 (by decide)

/-! ## C6 -/

lemma get_status_not_found (gid : String) (db : DB) (h : ∀ g ∈ db, g.id ≠ gid) :
    get_grievance_status gid db =
      { success := false, grievance := none, error := some "Grievance not found" } := by
  induction db with
  | nil => rfl
  | cons g rest ih =>
    have hg : ¬ g.id = gid := h g (by simp)
    simp only [get_grievance_status, if_neg hg]
    exact ih fun g' hg' => h g' (by simp [hg'])

lemma escalate_not_found (gid reason now : String) (db : DB)
    (h : ∀ g ∈ db, g.id ≠ gid) :
    escalate_grievance gid reason now db =
      ({ success := false, message := none, error := some "Grievance not found" }, db) := by
  induction db with
  | nil => rfl
  | cons g rest ih =>
    have hg : ¬ g.id = gid := h g (by simp)
    simp only [escalate_grievance, if_neg hg]
    rw [ih fun g' hg' => h g' (by simp [hg'])]

lemma response_time_not_found (gid : String) (hoursSince : String → ℚ) (db : DB)
    (h : ∀ g ∈ db, g.id ≠ gid) :
    calculate_response_time gid hoursSince db =
      { success := false, response_time_hours := none, within_sla := none,
        error := some "Grievance not found" } := by
  induction db with
  | nil => rfl
  | cons g rest ih =>
    have hg : ¬ g.id = gid := h g (by simp)
    simp only [calculate_response_time, if_neg hg]
    exact ih fun g' hg' => h g' (by simp [hg'])

/-- C6: for an id not present in the store, `get_grievance_status`,
`escalate_grievance` and `calculate_response_time` each return a structured
`success = false` envelope whose error string contains `"not found"`, raise
nothing (all three are total functions), and leave the store unchanged. -/
theorem store_not_found (grievance_id reason now : String)
    (hoursSince : String → ℚ) (db : DB) (h : ∀ g ∈ db, g.id ≠ grievance_id) :
    get_grievance_status grievance_id db =
      { success := false, grievance := none, error := some "Grievance not found" } ∧
    (escalate_grievance grievance_id reason now db).1 =
      { success := false, message := none, error := some "Grievance not found" } ∧
    (escalate_grievance grievance_id reason now db).2 = db ∧
    calculate_response_time grievance_id hoursSince db =
      { success := false, response_time_hours := none, within_sla := none,
        error := some "Grievance not found" } ∧
    strContains "not found" "Grievance not found" = true := by
  have he := escalate_not_found grievance_id reason now db h
  exact ⟨get_status_not_found grievance_id db h,
    by rw [he], by rw [he],
    response_time_not_found grievance_id hoursSince db h,
    by decide⟩

/-- Witness for C6: an unknown id against a store holding one grievance. -/
theorem store_not_found_w :
    get_grievance_status "NPCI999999"
        (create_grievance "user1" "other" "desc" "medium" "general" "t0" []).2 =
      { success := false, grievance := none, error := some "Grievance not found" } ∧
    (escalate_grievance "NPCI999999" "slow" "t1"
        (create_grievance "user1" "other" "desc" "medium" "general" "t0" []).2).2 =
      (create_grievance "user1" "other" "desc" "medium" "general" "t0" []).2 := by
  have h := store_not_found "NPCI999999" "slow" "t1" (fun _ => 0)
    (create_grievance "user1" "other" "desc" "medium" "general" "t0" []).2 (by decide)
  exact ⟨h.1, h.2.2.1⟩

/-! ## C7 -/

lemma buildMessages_window (k : Nat) (hist : List ChatMsg) (m : String) :
    ∃ rest kept, hist = rest ++ kept ∧ kept.length = min k hist.length ∧
      buildMessages k (some hist) m = kept ++ [{ role := "user", content := m }] := by
  refine ⟨hist.take (hist.length - k), hist.drop (hist.length - k),
    (List.take_append_drop _ _).symm, ?_, ?_⟩
  · simp only [List.length_drop]
    omega
  · unfold buildMessages
    by_cases h : hist = []
    · subst h; simp
    · simp [h]

/-- C7: both orchestrator paths forward exactly the most recent K history
turns followed by the new user message appended last, with `process_message`
keeping the last 10 turns and `stream_message` the smaller constant of the
last 8. -/
theorem orchestrator_history_window (hist : List ChatMsg) (m : String) :
    (∃ rest kept, hist = rest ++ kept ∧ kept.length = min 10 hist.length ∧
      processMessages (some hist) m = kept ++ [{ role := "user", content := m }]) ∧
    (∃ rest kept, hist = rest ++ kept ∧ kept.length = min 8 hist.length ∧
      streamMessages (some hist) m = kept ++ [{ role := "user", content := m }]) :=
  ⟨buildMessages_window 10 hist m, buildMessages_window 8 hist m⟩

/-! ## Injectivity of the grievance id format -/

lemma valOf_digitsAux : ∀ (fuel n : Nat), n ≤ fuel → valOf (digitsAux fuel n) = n := by
  intro fuel
  induction fuel with
  | zero =>
    intro n hn
    interval_cases n
    rfl
  | succ f ih =>
    intro n hn
    match n with
    | 0 => rfl
    | m + 1 =>
      have hdiv : (m + 1) / 10 < m + 1 := Nat.div_lt_self (Nat.succ_pos m) (by norm_num)
      rw [digitsAux, valOf, ih ((m + 1) / 10) (by omega)]
      exact Nat.mod_add_div (m + 1) 10

lemma digitsOf_inj {m n : Nat} (h : digitsOf m = digitsOf n) : m = n := by
  have hm := valOf_digitsAux m m le_rfl
  have hn := valOf_digitsAux n n le_rfl
  unfold digitsOf at h
  rw [← hm, ← hn, h]

lemma digitsAux_lt_ten : ∀ (fuel n d : Nat), d ∈ digitsAux fuel n → d < 10 := by
  intro fuel
  induction fuel with
  | zero =>
    intro n d hd
    match n with
    | 0 => simp [digitsAux] at hd
    | m + 1 => simp [digitsAux] at hd
  | succ f ih =>
    intro n d hd
    match n with
    | 0 => simp [digitsAux] at hd
    | m + 1 =>
      rw [digitsAux] at hd
      rcases List.mem_cons.mp hd with h | h
      · subst h
        exact Nat.mod_lt _ (by norm_num)
      · exact ih _ _ h

lemma digitsAux_rev_head : ∀ (fuel n : Nat), 1 ≤ n → n ≤ fuel →
    ∃ d ds, (digitsAux fuel n).reverse = d :: ds ∧ d ≠ 0 ∧ d < 10 := by
  intro fuel
  induction fuel with
  | zero => intro n h1 h2; omega
  | succ f ih =>
    intro n h1 h2
    match n, h1 with
    | m + 1, _ =>
      rw [digitsAux]
      by_cases hq : (m + 1) / 10 = 0
      · have hnil : digitsAux f ((m + 1) / 10) = [] := by
          rw [hq]; cases f <;> rfl
        have hlt : m + 1 < 10 := by
          by_contra hge
          push_neg at hge
          have : 1 ≤ (m + 1) / 10 := (Nat.one_le_div_iff (by norm_num)).mpr hge
          omega
        refine ⟨(m + 1) % 10, [], by simp [hnil], ?_, Nat.mod_lt _ (by norm_num)⟩
        rw [Nat.mod_eq_of_lt hlt]
        omega
      · have hdiv : (m + 1) / 10 < m + 1 := Nat.div_lt_self (Nat.succ_pos m) (by norm_num)
        obtain ⟨d, ds, hrev, hd0, hd10⟩ := ih ((m + 1) / 10) (by omega) (by omega)
        rw [List.reverse_cons, hrev]
        exact ⟨d, ds ++ [(m + 1) % 10], by simp, hd0, hd10⟩

lemma digitChar_inj_lt : ∀ x < 10, ∀ y < 10, Nat.digitChar x = Nat.digitChar y → x = y := by
  decide

lemma digitChar_ne_zero_char : ∀ x < 10, x ≠ 0 → Nat.digitChar x ≠ '0' := by
  decide

lemma map_digitChar_inj : ∀ (l1 l2 : List Nat), (∀ x ∈ l1, x < 10) → (∀ x ∈ l2, x < 10) →
    l1.map Nat.digitChar = l2.map Nat.digitChar → l1 = l2 := by
  intro l1
  induction l1 with
  | nil =>
    intro l2 _ _ h
    cases l2 with
    | nil => rfl
    | cons b l2' => simp at h
  | cons a l ih =>
    intro l2 h1 h2 h
    cases l2 with
    | nil => simp at h
    | cons b l2' =>
      simp only [List.map_cons, List.cons.injEq] at h
      rw [digitChar_inj_lt a (h1 a (by simp)) b (h2 b (by simp)) h.1,
        ih l2' (fun x hx => h1 x (by simp [hx])) (fun x hx => h2 x (by simp [hx])) h.2]

lemma zero_pad_cancel : ∀ (a b : Nat) (r1 r2 : List Char),
    r1.head? ≠ some '0' → r2.head? ≠ some '0' →
    List.replicate a '0' ++ r1 = List.replicate b '0' ++ r2 → r1 = r2 := by
  intro a
  induction a with
  | zero =>
    intro b r1 r2 h1 h2 h
    cases b with
    | zero => simpa using h
    | succ b' =>
      exfalso
      apply h1
      simp only [List.replicate_zero, List.nil_append, List.replicate_succ,
        List.cons_append] at h
      rw [h]
      rfl
  | succ a' ih =>
    intro b r1 r2 h1 h2 h
    cases b with
    | zero =>
      exfalso
      apply h2
      simp only [List.replicate_zero, List.nil_append, List.replicate_succ,
        List.cons_append] at h
      rw [← h]
      rfl
    | succ b' =>
      simp only [List.replicate_succ, List.cons_append, List.cons.injEq] at h
      exact ih b' r1 r2 h1 h2 h.2

lemma padRepr_head (n : Nat) (hn : 1 ≤ n) :
    ∃ d ds, ((digitsOf n).map Nat.digitChar).reverse = Nat.digitChar d :: ds ∧
      d ≠ 0 ∧ d < 10 := by
  obtain ⟨d, ds, hrev, hd0, hd10⟩ := digitsAux_rev_head n n hn le_rfl
  refine ⟨d, ds.map Nat.digitChar, ?_, hd0, hd10⟩
  rw [← List.map_reverse]
  unfold digitsOf
  rw [hrev]
  rfl

lemma formatId_inj {m n : Nat} (hm : 1 ≤ m) (hn : 1 ≤ n)
    (h : formatId m = formatId n) : m = n := by
  unfold formatId at h
  have h' : 'N' :: 'P' :: 'C' :: 'I' :: padRepr m =
      'N' :: 'P' :: 'C' :: 'I' :: padRepr n := congrArg String.data h
  simp only [List.cons.injEq, true_and] at h'
  unfold padRepr at h'
  obtain ⟨d1, ds1, hrev1, hd1, hd1lt⟩ := padRepr_head m hm
  obtain ⟨d2, ds2, hrev2, hd2, hd2lt⟩ := padRepr_head n hn
  simp only at h'
  have hcancel : ((digitsOf m).map Nat.digitChar).reverse =
      ((digitsOf n).map Nat.digitChar).reverse := by
    apply zero_pad_cancel _ _ _ _ ?_ ?_ h'
    · rw [hrev1]
      simp only [List.head?_cons]
      exact fun hc => digitChar_ne_zero_char d1 hd1lt hd1 (Option.some.inj hc)
    · rw [hrev2]
      simp only [List.head?_cons]
      exact fun hc => digitChar_ne_zero_char d2 hd2lt hd2 (Option.some.inj hc)
  have hmap : (digitsOf m).map Nat.digitChar = (digitsOf n).map Nat.digitChar :=
    List.reverse_injective hcancel
  exact digitsOf_inj (map_digitChar_inj _ _
    (fun x hx => digitsAux_lt_ten m m x hx)
    (fun x hx => digitsAux_lt_ten n n x hx) hmap)

/-! ## C1 -/

lemma create_snd_ids (u c d p s t : String) (db : DB) :
    (create_grievance u c d p s t db).2.map Grievance.id =
      db.map Grievance.id ++ [formatId (db.length + 1)] := by
  simp [create_grievance]

lemma create_snd_len (u c d p s t : String) (db : DB) :
    (create_grievance u c d p s t db).2.length = db.length + 1 := by
  simp [create_grievance]

lemma runCreates_spec : ∀ (cs : List CreateArgs) (db : DB),
    (runCreates cs db).1 =
      (List.range cs.length).map (fun i => formatId (db.length + i + 1)) ∧
    (runCreates cs db).2.map Grievance.id =
      db.map Grievance.id ++ (runCreates cs db).1 := by
  intro cs
  induction cs with
  | nil => intro db; simp [runCreates]
  | cons c cs ih =>
    intro db
    obtain ⟨ih1, ih2⟩ :=
      ih (create_grievance c.user_id c.category c.description c.priority c.service_type c.now db).2
    rw [create_snd_len] at ih1
    constructor
    · show (runCreates (c :: cs) db).1 = _
      rw [runCreates]
      simp only
      rw [ih1]
      simp only [List.length_cons]
      rw [List.range_succ_eq_map, List.map_cons, List.map_map]
      refine congrArg₂ _ rfl (List.map_congr_left fun i _ => ?_)
      simp only [Function.comp_apply]
      congr 1
      omega
    · show (runCreates (c :: cs) db).2.map Grievance.id = _
      rw [runCreates]
      simp only
      rw [ih2, create_snd_ids, List.append_assoc]
      rfl

lemma get_status_append (gid : String) (db1 db2 : DB)
    (h : ∀ g ∈ db1, g.id ≠ gid) :
    get_grievance_status gid (db1 ++ db2) = get_grievance_status gid db2 := by
  induction db1 with
  | nil => rfl
  | cons g rest ih =>
    have hg : ¬ g.id = gid := h g (by simp)
    simp only [List.cons_append, get_grievance_status, if_neg hg]
    exact ih fun g' hg' => h g' (by simp [hg'])

/-- The ids returned by any sequence of creates from the empty store. -/
lemma runCreates_ids_from_empty (cs : List CreateArgs) :
    (runCreates cs []).1 = (List.range cs.length).map (fun i => formatId (i + 1)) := by
  have h := (runCreates_spec cs []).1
  simpa using h

lemma runCreates_db_ids_from_empty (cs : List CreateArgs) :
    (runCreates cs []).2.map Grievance.id =
      (List.range cs.length).map (fun i => formatId (i + 1)) := by
  have h := (runCreates_spec cs []).2
  rw [runCreates_ids_from_empty] at h
  simpa using h

/-- C1: across any sequence of `create_grievance` calls on the initially
empty store, the returned ids are the formats of the consecutive sequence
numbers 1, 2, …, are pairwise distinct (no id is ever reused), carry
strictly increasing sequence numbers in creation order, and a
`get_grievance_status` lookup with an id just returned by a further
`create_grievance` succeeds and reports status `"open"`. -/
theorem create_ids_unique_increasing_status_open (cs : List CreateArgs) (c : CreateArgs) :
    (runCreates cs []).1 = (List.range cs.length).map (fun i => formatId (i + 1)) ∧
    List.Pairwise (· ≠ ·) (runCreates cs []).1 ∧
    List.Pairwise (fun a b => ∃ p q, 1 ≤ p ∧ p < q ∧ a = formatId p ∧ b = formatId q)
      (runCreates cs []).1 ∧
    (∃ g, get_grievance_status
        (create_grievance c.user_id c.category c.description c.priority c.service_type c.now
          (runCreates cs []).2).1.grievance_id
        (create_grievance c.user_id c.category c.description c.priority c.service_type c.now
          (runCreates cs []).2).2 =
        { success := true, grievance := some g, error := none } ∧
      g.status = "open" ∧
      g.id = (create_grievance c.user_id c.category c.description c.priority c.service_type c.now
        (runCreates cs []).2).1.grievance_id) := by
  have hids := runCreates_ids_from_empty cs
  have hdbids := runCreates_db_ids_from_empty cs
  have hlen : (runCreates cs []).2.length = cs.length := by
    have := congrArg List.length hdbids
    simpa using this
  refine ⟨hids, ?_, ?_, ?_⟩
  · rw [hids, List.pairwise_map]
    refine (List.pairwise_lt_range _).imp ?_
    intro i j hij heq
    have := formatId_inj (by omega) (by omega) heq
    omega
  · rw [hids, List.pairwise_map]
    refine (List.pairwise_lt_range _).imp ?_
    intro i j hij
    exact ⟨i + 1, j + 1, by omega, by omega, rfl, rfl⟩
  · set db := (runCreates cs []).2 with hdb
    have hfst : (create_grievance c.user_id c.category c.description c.priority c.service_type
        c.now db).1.grievance_id = formatId (db.length + 1) := rfl
    have hne : ∀ g ∈ db, g.id ≠ formatId (db.length + 1) := by
      intro g hg heq
      have hmem : g.id ∈ db.map Grievance.id := List.mem_map_of_mem _ hg
      rw [hdbids] at hmem
      obtain ⟨i, hi, hgi⟩ := List.mem_map.mp hmem
      rw [List.mem_range] at hi
      rw [← hgi, hlen] at heq
      have := formatId_inj (by omega) (by omega) heq
      omega
    refine ⟨{ id := formatId (db.length + 1)
              user_id := c.user_id
              category := if c.category ∈ valid_categories then c.category
                          else "general_npci_query"
              service_type := c.service_type
              description := c.description
              priority := c.priority
              status := "open"
              created_at := c.now
              assigned_to := "NPCI_Support_Team"
              expected_resolution := "7-10 working days"
              escalation_level := 1
              escalation_reason := none
              escalated_at := none }, ?_, rfl, rfl⟩
    show get_grievance_status (formatId (db.length + 1)) (db ++ [_]) = _
    rw [get_status_append _ _ _ hne]
    simp [get_grievance_status]

/-! ## C2 -/

/-- C2 counterexample: escalating with the empty-string reason argument
succeeds but stores an empty escalation reason, so escalation does not
always leave a non-empty escalation reason. -/
theorem escalate_empty_reason_counterexample :
    (escalate_grievance "NPCI000001" "" "t1"
        (create_grievance "user1" "other" "desc" "medium" "general" "t0" []).2).1.success
      = true ∧
    ¬ (∀ g ∈ (escalate_grievance "NPCI000001" "" "t1"
          (create_grievance "user1" "other" "desc" "medium" "general" "t0" []).2).2,
        g.escalation_reason ≠ some "") := by
  decide

/-- C2 (amended): for every grievance present in the store,
`escalate_grievance` succeeds and leaves the grievance with priority
`"high"` and its escalation reason equal to the supplied reason argument
(hence non-empty whenever that argument is non-empty), regardless of prior
priority; and escalating twice with the same arguments yields the same
final store as escalating once, apart from the restamped escalation
timestamp (the second call's stamp prevails). -/
theorem escalate_sets_high_idempotent (grievance_id reason t t' : String) (db : DB)
    (h : grievance_id ∈ db.map Grievance.id) :
    (escalate_grievance grievance_id reason t db).1.success = true ∧
    (∃ g ∈ (escalate_grievance grievance_id reason t db).2,
        g.id = grievance_id ∧ g.priority = "high" ∧
        g.escalation_reason = some reason ∧ g.escalated_at = some t) ∧
    (escalate_grievance grievance_id reason t'
        (escalate_grievance grievance_id reason t db).2).2 =
      (escalate_grievance grievance_id reason t' db).2 := by
  induction db with
  | nil => simp at h
  | cons g rest ih =>
    by_cases hid : g.id = grievance_id
    · refine ⟨?_, ?_, ?_⟩
      · simp [escalate_grievance, hid]
      · refine ⟨{ g with priority := "high", escalation_reason := some reason,
                         escalated_at := some t },
          ?_, hid, rfl, rfl, rfl⟩
        simp [escalate_grievance, hid]
      · have hupd : ({ g with priority := "high", escalation_reason := some reason,
                              escalated_at := some t } : Grievance).id = grievance_id := hid
        simp [escalate_grievance, hid, hupd]
    · have h' : grievance_id ∈ rest.map Grievance.id := by
        simp only [List.map_cons, List.mem_cons] at h
        rcases h with h | h
        · exact absurd h.symm hid
        · exact h
      obtain ⟨ih1, ⟨g1, hg1, hg1id, hg1p, hg1r, hg1t⟩, ih3⟩ := ih h'
      refine ⟨?_, ⟨g1, ?_, hg1id, hg1p, hg1r, hg1t⟩, ?_⟩
      · simpa [escalate_grievance, hid] using ih1
      · simp only [escalate_grievance, if_neg hid]
        exact List.mem_cons_of_mem _ hg1
      · simp only [escalate_grievance, if_neg hid]
        exact congrArg (g :: ·) ih3

/-- Witness for C2 (amended) on a one-record store. -/
theorem escalate_sets_high_idempotent_w :
    (escalate_grievance "NPCI000001" "bank unresponsive" "t1"
        (create_grievance "user1" "other" "desc" "low" "general" "t0" []).2).1.success
      = true ∧
    (∃ g ∈ (escalate_grievance "NPCI000001" "bank unresponsive" "t1"
          (create_grievance "user1" "other" "desc" "low" "general" "t0" []).2).2,
        g.id = "NPCI000001" ∧ g.priority = "high" ∧
        g.escalation_reason = some "bank unresponsive" ∧ g.escalated_at = some "t1") ∧
    (escalate_grievance "NPCI000001" "bank unresponsive" "t2"
        (escalate_grievance "NPCI000001" "bank unresponsive" "t1"
          (create_grievance "user1" "other" "desc" "low" "general" "t0" []).2).2).2 =
      (escalate_grievance "NPCI000001" "bank unresponsive" "t2"
        (create_grievance "user1" "other" "desc" "low" "general" "t0" []).2).2 :=
  escalate_sets_high_idempotent "NPCI000001" "bank unresponsive" "t1" "t2"
    (create_grievance "user1" "other" "desc" "low" "general" "t0" []).2 (by decide)

/-! ## C8 -/

lemma create_mem (u c d p s t : String) (db : DB) (g : Grievance)
    (hg : g ∈ (create_grievance u c d p s t db).2) :
    g ∈ db ∨ (g.category = (if c ∈ valid_categories then c else "general_npci_query")
              ∧ g.priority = p) := by
  rcases List.mem_append.mp hg with h | h
  · exact Or.inl h
  · right
    rcases List.mem_singleton.mp h with rfl
    exact ⟨rfl, rfl⟩

lemma escalate_mem (gid r t : String) (db : DB) (g : Grievance)
    (hg : g ∈ (escalate_grievance gid r t db).2) :
    g ∈ db ∨ ∃ g0 ∈ db, g = { g0 with priority := "high",
                                       escalation_reason := some r,
                                       escalated_at := some t } := by
  induction db with
  | nil => simp [escalate_grievance] at hg
  | cons g0 rest ih =>
    by_cases hid : g0.id = gid
    · simp only [escalate_grievance, if_pos hid] at hg
      rcases List.mem_cons.mp hg with rfl | h
      · exact Or.inr ⟨g0, by simp, rfl⟩
      · exact Or.inl (List.mem_cons_of_mem _ h)
    · simp only [escalate_grievance, if_neg hid] at hg
      rcases List.mem_cons.mp hg with rfl | h
      · exact Or.inl (List.mem_cons_self _ _)
      · rcases ih h with h1 | ⟨ga, hga, heq⟩
        · exact Or.inl (List.mem_cons_of_mem _ h1)
        · exact Or.inr ⟨ga, List.mem_cons_of_mem _ hga, heq⟩

lemma applyOps_cat_inv : ∀ (ops : List StoreOp) (db : DB),
    (∀ g ∈ db, g.category ∈ valid_categories) →
    ∀ g ∈ applyOps db ops, g.category ∈ valid_categories := by
  intro ops
  induction ops with
  | nil => intro db h; simpa [applyOps] using h
  | cons op ops ih =>
    intro db h g hg
    rw [applyOps, List.foldl_cons] at hg
    refine ih (applyOp db op) ?_ g hg
    intro g' hg'
    cases op with
    | create u c d p s t =>
      rcases create_mem u c d p s t db g' hg' with h1 | ⟨hcat, _⟩
      · exact h _ h1
      · rw [hcat]
        split
        · assumption
        · decide
    | escalate gid r t =>
      rcases escalate_mem gid r t db g' hg' with h1 | ⟨g0, hg0, rfl⟩
      · exact h _ h1
      · exact h g0 hg0

lemma applyOps_pri_inv : ∀ (ops : List StoreOp) (db : DB),
    (∀ op ∈ ops, priorityOk op = true) →
    (∀ g ∈ db, g.priority ∈ ["low", "medium", "high"]) →
    ∀ g ∈ applyOps db ops, g.priority ∈ ["low", "medium", "high"] := by
  intro ops
  induction ops with
  | nil => intro db _ h; simpa [applyOps] using h
  | cons op ops ih =>
    intro db hops h g hg
    rw [applyOps, List.foldl_cons] at hg
    refine ih (applyOp db op) (fun o ho => hops o (by simp [ho])) ?_ g hg
    intro g' hg'
    cases op with
    | create u c d p s t =>
      rcases create_mem u c d p s t db g' hg' with h1 | ⟨_, hp⟩
      · exact h _ h1
      · rw [hp]
        have := hops (.create u c d p s t) (by simp)
        simpa [priorityOk] using this
    | escalate gid r t =>
      rcases escalate_mem gid r t db g' hg' with h1 | ⟨g0, hg0, rfl⟩
      · exact h _ h1
      · exact (by decide : ("high" : String) ∈ (["low", "medium", "high"] : List String))

/-- C8 counterexample: `create_grievance` does not validate the priority
argument, so a single create call with priority `"urgent"` leaves a stored
record whose priority is outside `low|medium|high`. -/
theorem priority_not_validated_counterexample :
    ¬ (∀ g ∈ applyOps [] [StoreOp.create "user1" "other" "desc" "urgent" "general" "t0"],
        g.priority ∈ ["low", "medium", "high"]) := by
  decide

/-- C8 (amended): after any sequence of `create_grievance` and
`escalate_grievance` operations on the initially empty store, every stored
grievance has a category from the fixed allow-list (an invalid category is
replaced by the generic one at creation); and every stored priority is one
of `low|medium|high` provided each create call supplied a priority from
that enum (escalation only writes `"high"`). -/
theorem grievance_enum_invariant (ops : List StoreOp) :
    (∀ g ∈ applyOps [] ops, g.category ∈ valid_categories) ∧
    ((∀ op ∈ ops, priorityOk op = true) →
      ∀ g ∈ applyOps [] ops, g.priority ∈ ["low", "medium", "high"]) :=
  ⟨applyOps_cat_inv ops [] (by simp),
   fun hp => applyOps_pri_inv ops [] hp (by simp)⟩

/-- Witness for C8 (amended) on a concrete create-then-escalate sequence
with an invalid category and valid priorities. -/
theorem grievance_enum_invariant_w :
    (∀ g ∈ applyOps [] [StoreOp.create "user1" "not_a_category" "desc" "low" "general" "t0",
                        StoreOp.escalate "NPCI000001" "slow" "t1"],
        g.category ∈ valid_categories) ∧
    (∀ g ∈ applyOps [] [StoreOp.create "user1" "not_a_category" "desc" "low" "general" "t0",
                        StoreOp.escalate "NPCI000001" "slow" "t1"],
        g.priority ∈ ["low", "medium", "high"]) :=
  ⟨(grievance_enum_invariant _).1, (grievance_enum_invariant _).2 (by decide)⟩

end FinBot
